import Mathlib

/-!
Verification of the workout-tracker core (src/script.js) against its
specification. The development shallowly embeds the data model and the
operations of the program: JavaScript numbers are modelled as rationals
extended with `NaN` and the two infinities, JavaScript `Date` values are
modelled by the observations the program makes of them (millisecond
timestamp, month index, day of month), and the DOM/map collaborators are
kept outside the model, exactly as the specification scopes them out.
-/

/-- A JavaScript number as used by the program: either a finite value
(modelled as a rational; the model collapses the signed zeros, which no
claim observes) or one of the non-finite values `NaN`, `Infinity`,
`-Infinity`. -/
inductive JSNum where
  | finite (q : ℚ)
  | nan
  | posInf
  | negInf
deriving DecidableEq, Repr

/-- `Number.isFinite` on the embedded numbers. -/
def JSNum.isFinite : JSNum → Bool
  | .finite _ => true
  | _ => false

/-- The JavaScript comparison `inp > 0` (false on `NaN` and `-Infinity`,
true on `Infinity`). -/
def JSNum.gtZero : JSNum → Bool
  | .finite q => decide (0 < q)
  | .posInf => true
  | _ => false

/-- JavaScript division on the embedded numbers. Division of a nonzero
finite number by zero yields a signed infinity, `0 / 0` is `NaN`, and
non-finite operands follow the IEEE rules. -/
def jsDiv (a b : JSNum) : JSNum :=
  match a, b with
  | .nan, _ => .nan
  | _, .nan => .nan
  | .posInf, .posInf => .nan
  | .posInf, .negInf => .nan
  | .negInf, .posInf => .nan
  | .negInf, .negInf => .nan
  | .posInf, .finite q => if 0 ≤ q then .posInf else .negInf
  | .negInf, .finite q => if 0 ≤ q then .negInf else .posInf
  | .finite _, .posInf => .finite 0
  | .finite _, .negInf => .finite 0
  | .finite q, .finite r =>
    if r = 0 then (if q = 0 then .nan else if 0 < q then .posInf else .negInf)
    else .finite (q / r)

/-- A JavaScript `Date` as observed by the program: the millisecond
timestamp (`Date.now()` / `getTime`), the zero-based month (`getMonth`,
always in `0..11`) and the day of the month (`getDate`). -/
structure JSDate where
  millis : Nat
  month : Fin 12
  day : Nat
deriving DecidableEq, Repr

/-- The fixed month-name table of `Workout._setDescription`. -/
def months : List String :=
  ["January", "February", "March", "April", "May", "June", "July",
   "August", "September", "October", "November", "December"]

/-- The template fragment `type[0].toUpperCase() + type.slice(1)`:
capitalizes the first character. Only ever applied to the nonempty
literals "running" and "cycling" (on the empty string the source would
throw, a case that cannot arise). -/
def jsCapitalizeFirst (s : String) : String :=
  match s.data with
  | [] => ""
  | c :: cs => String.mk (c.toUpper :: cs)

/-- JavaScript `s.slice(-k)`: the last `k` characters of `s` (all of `s`
when it is shorter than `k`). -/
def jsSliceFromEnd (s : String) (k : Nat) : String :=
  String.mk (s.data.drop (s.data.length - k))

/-- The id initializer of `Workout`: `(Date.now() + '').slice(-10)`. -/
def workoutId (millis : Nat) : String :=
  jsSliceFromEnd (Nat.repr millis) 10

/-- `Workout._setDescription`: the string
`{Type} on {MonthName} {Day}` built from the type tag and the creation
date. (`getDate` is rendered with `Nat.repr`, the decimal printer.) -/
def setDescription (type : String) (date : JSDate) : String :=
  jsCapitalizeFirst type ++ " on " ++ months.getD date.month.val "" ++
    " " ++ Nat.repr date.day

/-- The variant-specific fields: `Running` stores `cadence` and the
derived `pace`, `Cycling` stores `elevation` and the derived `speed`. -/
inductive Variant where
  | running (cadence pace : JSNum)
  | cycling (elevation speed : JSNum)
deriving DecidableEq, Repr

/-- A workout record: the own fields of a `Running` or `Cycling` object
after construction. -/
structure Workout where
  date : JSDate
  id : String
  clicks : Nat
  coords : ℚ × ℚ
  distance : JSNum
  duration : JSNum
  type : String
  variant : Variant
  description : String
deriving DecidableEq, Repr

/-- `Running.calcPace`: `pace = duration / distance` (min/km). -/
def calcPace (duration distance : JSNum) : JSNum :=
  jsDiv duration distance

/-- `Cycling.calcSpeed`: `speed = distance / (duration / 60)` (km/h). -/
def calcSpeed (distance duration : JSNum) : JSNum :=
  jsDiv distance (jsDiv duration (.finite 60))

/-- The `Running` constructor: captures the creation date, derives the
id from the timestamp, stores the common and variant fields, computes
the pace immediately and sets the description. -/
def Running (now : JSDate) (coords : ℚ × ℚ)
    (distance duration cadence : JSNum) : Workout :=
  { date := now
    id := workoutId now.millis
    clicks := 0
    coords := coords
    distance := distance
    duration := duration
    type := "running"
    variant := .running cadence (calcPace duration distance)
    description := setDescription "running" now }

/-- The `Cycling` constructor: as `Running`, with the elevation field
and the derived speed. -/
def Cycling (now : JSDate) (coords : ℚ × ℚ)
    (distance duration elevation : JSNum) : Workout :=
  { date := now
    id := workoutId now.millis
    clicks := 0
    coords := coords
    distance := distance
    duration := duration
    type := "cycling"
    variant := .cycling elevation (calcSpeed distance duration)
    description := setDescription "cycling" now }

/-- `Workout.click`: increments the `clicks` counter. -/
def Workout.click (w : Workout) : Workout :=
  { w with clicks := w.clicks + 1 }

/-!
The application layer around `App._newWorkout`, `App._setLocalStorage`
and `App._getLocalStorage`. `JSON.stringify`/`JSON.parse` are modelled
up to the parse tree of the emitted text: the model represents the
stored string by its JSON structure (`JValue`), on which the
stringify/parse pair is the identity, as it is for the plain data the
program stores. A `Date` serializes (via `Date.prototype.toJSON`) to an
ISO string fully determined by the date; the model keeps that string
abstract as the `jdate` leaf, which `JSON.parse` hands back as a plain
string, not a `Date`.
-/

/-- A JSON value as stored under the "workouts" key. -/
inductive JValue where
  | jnull
  | jstr (s : String)
  | jdate (d : JSDate)
  | jnum (q : ℚ)
  | jarr (items : List JValue)
  | jobj (fields : List (String × JValue))

/-- `JSON.stringify` on a number: finite numbers keep their value,
`NaN` and the infinities become `null`. -/
def numToJson : JSNum → JValue
  | .finite q => .jnum q
  | _ => .jnull

/-- `JSON.stringify` on a workout object: the own fields, in the order
JavaScript initializes them (base-class fields, base constructor body,
subclass field `type`, subclass constructor body). -/
def Workout.toJson (w : Workout) : JValue :=
  .jobj ([("date", .jdate w.date), ("id", .jstr w.id),
          ("clicks", .jnum (w.clicks : ℚ)),
          ("coords", .jarr [.jnum w.coords.1, .jnum w.coords.2]),
          ("distance", numToJson w.distance),
          ("duration", numToJson w.duration),
          ("type", .jstr w.type)] ++
         (match w.variant with
          | .running c p => [("cadence", numToJson c), ("pace", numToJson p)]
          | .cycling e s => [("elevation", numToJson e), ("speed", numToJson s)]) ++
         [("description", .jstr w.description)])

/-- `JSON.stringify` on one entry of the workouts array: an `undefined`
entry (modelled as `none`) serializes to `null` inside an array. -/
def encodeEntry : Option Workout → JValue
  | none => .jnull
  | some w => w.toJson

/-- Property lookup on a parsed JSON object, first binding wins. -/
def getField (fields : List (String × JValue)) (k : String) : Option JValue :=
  match fields with
  | [] => none
  | (k', v) :: rest => if k' = k then some v else getField rest k

/-- `App._setLocalStorage`: the value stored under the key "workouts"
is the serialization of the in-memory workouts array. -/
def setLocalStorage (workouts : List (Option Workout)) : JValue :=
  .jarr (workouts.map encodeEntry)

/-- `App._getLocalStorage`: parse the stored value (absent key gives
`null` and the method returns early); the parsed array of plain records
becomes the restored workouts collection. Re-rendering the restored
list is DOM work outside the model. -/
def getLocalStorage (stored : Option JValue) : Option (List JValue) :=
  match stored with
  | none => none
  | some (.jarr items) => some items
  | some _ => none

/-- The raw form submission as `_newWorkout` reads it: the type
selector and the four input fields after the `+input.value` numeric
coercion, plus the clicked map coordinates. -/
structure FormInput where
  type : String
  distance : JSNum
  duration : JSNum
  cadence : JSNum
  elevation : JSNum
  lat : ℚ
  lng : ℚ
deriving DecidableEq, Repr

/-- The `validInputs` helper of `_newWorkout`:
every input is a finite number. -/
def validInputs (inputs : List JSNum) : Bool :=
  inputs.all JSNum.isFinite

/-- The `allPositive` helper of `_newWorkout`:
every input satisfies `inp > 0`. -/
def allPositive (inputs : List JSNum) : Bool :=
  inputs.all JSNum.gtZero

/-- The mutable state the handler touches: the in-memory `#workouts`
array (whose entries can be `undefined`, modelled as `none`) and the
"workouts" slot of local storage. -/
structure AppState where
  workouts : List (Option Workout)
  storage : Option JValue

/-- How one run of the submit handler ends: an early return behind the
validation alert, normal completion, or an uncaught `TypeError`. -/
inductive Outcome where
  | alerted (msg : String)
  | completed
  | thrown (msg : String)
deriving DecidableEq, Repr

/-- The tail of `_newWorkout` after the two type branches: push the
(possibly undefined) workout, render its marker — which reads
`workout.coords` and therefore throws a `TypeError` when the workout is
`undefined`, aborting the handler before persistence — then render the
list item, hide the form, and persist the collection. -/
def finishSubmit (s : AppState) (w : Option Workout) : AppState × Outcome :=
  let ws := s.workouts ++ [w]
  match w with
  | none =>
    ({ workouts := ws, storage := s.storage },
     .thrown "TypeError: cannot read coords of undefined")
  | some _ =>
    ({ workouts := ws, storage := some (setLocalStorage ws) }, .completed)

/-- `App._newWorkout`: read the form, and per type selector validate
and construct the matching variant — rejecting with the alert
`Inputs have to be positive numbers!` when validation fails — then run
the common tail. The source writes the two branches as successive `if`
statements whose failure paths `return` early; since each taken branch
either returns or assigns `workout`, this equals the `if`/`else if`
chain written here, with the no-branch case leaving `workout`
undefined. -/
def newWorkout (now : JSDate) (f : FormInput) (s : AppState) :
    AppState × Outcome :=
  if f.type = "running" then
    if validInputs [f.distance, f.duration, f.cadence] &&
       allPositive [f.distance, f.duration, f.cadence] then
      finishSubmit s (some (Running now (f.lat, f.lng)
        f.distance f.duration f.cadence))
    else (s, .alerted "Inputs have to be positive numbers!")
  else if f.type = "cycling" then
    if validInputs [f.distance, f.duration, f.elevation] &&
       allPositive [f.distance, f.duration] then
      finishSubmit s (some (Cycling now (f.lat, f.lng)
        f.distance f.duration f.elevation))
    else (s, .alerted "Inputs have to be positive numbers!")
  else
    finishSubmit s none

/-- Finiteness of the variant numbers of a record (cadence and pace, or
elevation and speed). -/
def Variant.numbersFinite : Variant → Bool
  | .running c p => c.isFinite && p.isFinite
  | .cycling e s => e.isFinite && s.isFinite

/-- All numeric fields of the record are finite, as they are for every
record the validation boundary lets through. -/
def Workout.numbersFinite (w : Workout) : Bool :=
  w.distance.isFinite && w.duration.isFinite && w.variant.numbersFinite

/-- Property lookup on a parsed JSON value (`none` off an object). -/
def JValue.getF : JValue → String → Option JValue
  | .jobj fields, k => getField fields k
  | _, _ => none

/-- The parsed store entry `j` is a plain structured record carrying
exactly the own field values of the workout `w`: the common fields, the
numeric fields with their original values, and the variant fields of
whichever variant `w` is. The date comes back as the ISO string the
original date serialized to (the `jdate` leaf). -/
def recordMatches (j : JValue) (w : Workout) : Prop :=
  j.getF "date" = some (.jdate w.date) ∧
  j.getF "id" = some (.jstr w.id) ∧
  j.getF "clicks" = some (.jnum (w.clicks : ℚ)) ∧
  j.getF "coords" = some (.jarr [.jnum w.coords.1, .jnum w.coords.2]) ∧
  (∃ q, w.distance = .finite q ∧ j.getF "distance" = some (.jnum q)) ∧
  (∃ q, w.duration = .finite q ∧ j.getF "duration" = some (.jnum q)) ∧
  j.getF "type" = some (.jstr w.type) ∧
  j.getF "description" = some (.jstr w.description) ∧
  (∀ c p, w.variant = .running c p →
    (∃ q, c = .finite q ∧ j.getF "cadence" = some (.jnum q)) ∧
    (∃ q, p = .finite q ∧ j.getF "pace" = some (.jnum q))) ∧
  (∀ e sp, w.variant = .cycling e sp →
    (∃ q, e = .finite q ∧ j.getF "elevation" = some (.jnum q)) ∧
    (∃ q, sp = .finite q ∧ j.getF "speed" = some (.jnum q)))

/-- A finite embedded number is a `finite` constructor application. -/
theorem exists_finite_of_isFinite {x : JSNum} (h : x.isFinite = true) :
    ∃ q, x = .finite q := by
  cases x <;> simp_all [JSNum.isFinite]

/-- Serializing a workout and reading the parsed object back field by
field recovers every own field value. -/
theorem toJson_recordMatches (w : Workout) (h : w.numbersFinite = true) :
    recordMatches w.toJson w := by
  obtain ⟨date, id, clicks, coords, dist, dur, ty, varnt, descr⟩ := w
  simp only [Workout.numbersFinite, Bool.and_eq_true] at h
  obtain ⟨⟨hdist, hdur⟩, hvar⟩ := h
  obtain ⟨qd, rfl⟩ := exists_finite_of_isFinite hdist
  obtain ⟨qdu, rfl⟩ := exists_finite_of_isFinite hdur
  cases varnt with
  | running c p =>
    simp only [Variant.numbersFinite, Bool.and_eq_true] at hvar
    obtain ⟨qc, rfl⟩ := exists_finite_of_isFinite hvar.1
    obtain ⟨qp, rfl⟩ := exists_finite_of_isFinite hvar.2
    refine ⟨rfl, rfl, rfl, rfl, ⟨qd, rfl, rfl⟩, ⟨qdu, rfl, rfl⟩, rfl, rfl,
      ?_, ?_⟩
    · intro c' p' hv
      injection hv with h1 h2
      subst h1; subst h2
      exact ⟨⟨qc, rfl, rfl⟩, ⟨qp, rfl, rfl⟩⟩
    · intro e sp hv
      exact absurd hv (by simp)
  | cycling e sp =>
    simp only [Variant.numbersFinite, Bool.and_eq_true] at hvar
    obtain ⟨qe, rfl⟩ := exists_finite_of_isFinite hvar.1
    obtain ⟨qs, rfl⟩ := exists_finite_of_isFinite hvar.2
    refine ⟨rfl, rfl, rfl, rfl, ⟨qd, rfl, rfl⟩, ⟨qdu, rfl, rfl⟩, rfl, rfl,
      ?_, ?_⟩
    · intro c' p' hv
      exact absurd hv (by simp)
    · intro e' sp' hv
      injection hv with h1 h2
      subst h1; subst h2
      exact ⟨⟨qe, rfl, rfl⟩, ⟨qs, rfl, rfl⟩⟩

/-- `Nat.toDigitsCore`, given enough fuel, produces the reversed list
of decimal digits (most significant first). -/
theorem toDigitsCore_eq_digits (fuel : ℕ) : ∀ (n : ℕ) (acc : List Char),
    0 < n → n ≤ fuel →
    Nat.toDigitsCore 10 fuel n acc
      = ((Nat.digits 10 n).map Nat.digitChar).reverse ++ acc := by
  induction fuel with
  | zero => intro n acc hn hf; omega
  | succ fuel ih =>
    intro n acc hn hf
    rw [Nat.toDigitsCore]
    have hdig : Nat.digits 10 n = n % 10 :: Nat.digits 10 (n / 10) :=
      Nat.digits_def' (by norm_num) hn
    by_cases hq : n / 10 = 0
    · simp [hq, hdig]
    · have hlt : n / 10 < n := Nat.div_lt_self hn (by norm_num)
      rw [if_neg hq, ih (n / 10) _ (Nat.pos_of_ne_zero hq) (by omega)]
      simp [hdig]

/-- The character list behind `Nat.repr` is the big-endian decimal
digit string. -/
theorem toDigits_eq_digits (n : ℕ) (hn : 0 < n) :
    Nat.toDigits 10 n = ((Nat.digits 10 n).map Nat.digitChar).reverse := by
  rw [Nat.toDigits, toDigitsCore_eq_digits (n + 1) n [] hn (by omega),
    List.append_nil]

/-- The low `k` decimal digits of `n` denote `n` modulo `10 ^ k`. -/
theorem ofDigits_take_eq_mod (k : ℕ) : ∀ n : ℕ,
    Nat.ofDigits 10 ((Nat.digits 10 n).take k) = n % 10 ^ k := by
  induction k with
  | zero => intro n; simp [Nat.ofDigits, Nat.mod_one]
  | succ k ih =>
    intro n
    rcases Nat.eq_zero_or_pos n with rfl | hn
    · simp
    · rw [Nat.digits_def' (by norm_num : (1:ℕ) < 10) hn, List.take_succ_cons,
        Nat.ofDigits_cons, ih (n / 10), pow_succ', Nat.mod_mul]

/-- Claim C1: for a submission whose type selector is "running" or
"cycling", if any required numeric field (distance, duration, cadence
for running; distance, duration, elevation for cycling) is non-finite,
or any field required to be positive (distance, duration, and for
running cadence) is not strictly positive, then the handler rejects
with the alert `Inputs have to be positive numbers!` and neither
constructs a record nor appends to the collection nor touches
storage. -/
theorem factory_rejects_invalid_inputs (now : JSDate) (f : FormInput)
    (s : AppState)
    (h : (f.type = "running" ∧
           ¬(f.distance.isFinite ∧ f.duration.isFinite ∧ f.cadence.isFinite ∧
             f.distance.gtZero ∧ f.duration.gtZero ∧ f.cadence.gtZero)) ∨
         (f.type = "cycling" ∧
           ¬(f.distance.isFinite ∧ f.duration.isFinite ∧ f.elevation.isFinite ∧
             f.distance.gtZero ∧ f.duration.gtZero))) :
    newWorkout now f s = (s, .alerted "Inputs have to be positive numbers!") := by
  rcases h with ⟨ht, hbad⟩ | ⟨ht, hbad⟩
  · have hcond : (validInputs [f.distance, f.duration, f.cadence] &&
        allPositive [f.distance, f.duration, f.cadence]) = false := by
      simp only [validInputs, allPositive, List.all_cons, List.all_nil]
      revert hbad
      cases f.distance.isFinite <;> cases f.duration.isFinite <;>
        cases f.cadence.isFinite <;> cases f.distance.gtZero <;>
        cases f.duration.gtZero <;> cases f.cadence.gtZero <;> simp
    simp [newWorkout, ht, hcond]
  · have hcond : (validInputs [f.distance, f.duration, f.elevation] &&
        allPositive [f.distance, f.duration]) = false := by
      simp only [validInputs, allPositive, List.all_cons, List.all_nil]
      revert hbad
      cases f.distance.isFinite <;> cases f.duration.isFinite <;>
        cases f.elevation.isFinite <;> cases f.distance.gtZero <;>
        cases f.duration.gtZero <;> simp
    simp [newWorkout, ht, hcond]

/-- Witness for C1: a running submission with `NaN` distance is
rejected and the state is untouched. -/
theorem factory_rejects_invalid_inputs_witness :
    (("running" : String) = "running" ∧
      ¬((JSNum.nan).isFinite ∧ (JSNum.finite 1).isFinite ∧
        (JSNum.finite 1).isFinite ∧ (JSNum.nan).gtZero ∧
        (JSNum.finite 1).gtZero ∧ (JSNum.finite 1).gtZero)) ∧
    newWorkout ⟨1730368800000, 9, 31⟩
      ⟨"running", .nan, .finite 1, .finite 1, .finite 1, 40, -74⟩ ⟨[], none⟩
      = (⟨[], none⟩, .alerted "Inputs have to be positive numbers!") :=
  ⟨⟨rfl, by decide⟩,
   factory_rejects_invalid_inputs ⟨1730368800000, 9, 31⟩
     ⟨"running", .nan, .finite 1, .finite 1, .finite 1, 40, -74⟩ ⟨[], none⟩
     (Or.inl ⟨rfl, by decide⟩)⟩

/-- Claim C2: for every `Running` record built from finite positive
distance, duration and cadence, construction succeeds and the variant
field caches `pace = duration / distance` exactly. -/
theorem running_pace_eq_duration_div_distance (now : JSDate)
    (coords : ℚ × ℚ) (d du c : ℚ) (hd : 0 < d) (hdu : 0 < du) (hc : 0 < c) :
    (Running now coords (.finite d) (.finite du) (.finite c)).variant
      = .running (.finite c) (.finite (du / d)) := by
  simp [Running, calcPace, jsDiv, hd.ne']

/-- Witness for C2: distance 2, duration 5, cadence 170 gives a stored
pace of 5/2 min/km. -/
theorem running_pace_eq_duration_div_distance_witness :
    ((0:ℚ) < 2 ∧ (0:ℚ) < 5 ∧ (0:ℚ) < 170) ∧
    (Running ⟨1730368800000, 9, 31⟩ (40, -74) (.finite 2) (.finite 5)
      (.finite 170)).variant = .running (.finite 170) (.finite (5 / 2)) :=
  ⟨⟨by norm_num, by norm_num, by norm_num⟩,
   running_pace_eq_duration_div_distance ⟨1730368800000, 9, 31⟩ (40, -74)
     2 5 170 (by norm_num) (by norm_num) (by norm_num)⟩

/-- Claim C3: for every `Cycling` record built from finite positive
distance and duration, construction succeeds and the variant field
caches `speed = distance / (duration / 60)` exactly. -/
theorem cycling_speed_eq_distance_div_duration_hours (now : JSDate)
    (coords : ℚ × ℚ) (d du e : ℚ) (hd : 0 < d) (hdu : 0 < du) :
    (Cycling now coords (.finite d) (.finite du) (.finite e)).variant
      = .cycling (.finite e) (.finite (d / (du / 60))) := by
  simp [Cycling, calcSpeed, jsDiv, hdu.ne']

/-- Witness for C3, the scenario of the claim: distance 20 and duration
60 give a stored speed of exactly 20 km/h. -/
theorem cycling_speed_eq_distance_div_duration_hours_witness :
    ((0:ℚ) < 20 ∧ (0:ℚ) < 60) ∧
    (Cycling ⟨1730368800000, 9, 31⟩ (40, -74) (.finite 20) (.finite 60)
      (.finite 300)).variant = .cycling (.finite 300) (.finite 20) := by
  refine ⟨⟨by norm_num, by norm_num⟩, ?_⟩
  have h := cycling_speed_eq_distance_div_duration_hours ⟨1730368800000, 9, 31⟩
    (40, -74) 20 60 300 (by norm_num) (by norm_num)
  norm_num at h
  exact h

/-- Claim C4: the description of a record is a deterministic function
of the type tag and creation date, the capitalized type tag followed by
" on ", the month name from the fixed 12-entry table indexed by the
numeric month, a space and the day; in particular a running workout
dated October 31 is described as "Running on October 31". -/
theorem description_formats_type_month_day :
    (∀ (now : JSDate) (coords : ℚ × ℚ) (d du c : JSNum),
      (Running now coords d du c).description
        = "Running on " ++ months.getD now.month.val "" ++ " "
            ++ Nat.repr now.day) ∧
    (∀ (now : JSDate) (coords : ℚ × ℚ) (d du e : JSNum),
      (Cycling now coords d du e).description
        = "Cycling on " ++ months.getD now.month.val "" ++ " "
            ++ Nat.repr now.day) ∧
    ((Running ⟨1730368800000, 9, 31⟩ (40, -74) (.finite 5) (.finite 24)
      (.finite 178)).description = "Running on October 31") := by
  refine ⟨fun now coords d du c => ?_, fun now coords d du e => ?_, ?_⟩
  · show setDescription "running" now = _
    rw [setDescription]
    rw [show jsCapitalizeFirst "running" = "Running" from rfl]
    rw [show "Running" ++ " on " = "Running on " from rfl]
  · show setDescription "cycling" now = _
    rw [setDescription]
    rw [show jsCapitalizeFirst "cycling" = "Cycling" from rfl]
    rw [show "Cycling" ++ " on " = "Cycling on " from rfl]
  · decide

/-- Claim C5: serializing a collection of records under the "workouts"
key and reconstructing it from the store yields the same number of
plain structured records, and each reconstructed record carries exactly
the own field values of its original (class identity and methods do not
survive; the date survives as its serialized string). -/
theorem workouts_roundtrip_preserves_fields (ws : List Workout)
    (h : ∀ w ∈ ws, w.numbersFinite = true) :
    getLocalStorage (some (setLocalStorage (ws.map some)))
      = some (ws.map Workout.toJson) ∧
    (ws.map Workout.toJson).length = ws.length ∧
    ∀ w ∈ ws, recordMatches w.toJson w := by
  refine ⟨?_, List.length_map ws Workout.toJson,
    fun w hw => toJson_recordMatches w (h w hw)⟩
  show some ((ws.map some).map encodeEntry) = _
  rw [List.map_map, show encodeEntry ∘ some = Workout.toJson from
    funext fun w => rfl]

/-- Witness for C5: a one-element collection round-trips with every own
field value intact. -/
theorem workouts_roundtrip_preserves_fields_witness :
    (∀ w ∈ [Running ⟨1730368800000, 9, 31⟩ (40, -74) (.finite 5) (.finite 24)
        (.finite 178)], w.numbersFinite = true) ∧
    (getLocalStorage (some (setLocalStorage
        ([Running ⟨1730368800000, 9, 31⟩ (40, -74) (.finite 5) (.finite 24)
          (.finite 178)].map some)))
      = some ([Running ⟨1730368800000, 9, 31⟩ (40, -74) (.finite 5)
          (.finite 24) (.finite 178)].map Workout.toJson) ∧
     ([Running ⟨1730368800000, 9, 31⟩ (40, -74) (.finite 5) (.finite 24)
          (.finite 178)].map Workout.toJson).length = 1 ∧
     ∀ w ∈ [Running ⟨1730368800000, 9, 31⟩ (40, -74) (.finite 5) (.finite 24)
          (.finite 178)], recordMatches w.toJson w) :=
  ⟨by decide,
   workouts_roundtrip_preserves_fields
     [Running ⟨1730368800000, 9, 31⟩ (40, -74) (.finite 5) (.finite 24)
       (.finite 178)] (by decide)⟩

/-- Claim C6: a cycling submission with finite, strictly positive
distance and duration and any finite elevation — zero or negative
included — passes validation: a `Cycling` record is constructed,
appended and persisted; elevation positivity is not enforced. -/
theorem cycling_elevation_positivity_not_enforced (now : JSDate)
    (f : FormInput) (s : AppState) (d du e : ℚ) (ht : f.type = "cycling")
    (hdf : f.distance = .finite d) (hduf : f.duration = .finite du)
    (hef : f.elevation = .finite e) (hd : 0 < d) (hdu : 0 < du) :
    newWorkout now f s =
      ({ workouts := s.workouts ++
           [some (Cycling now (f.lat, f.lng) f.distance f.duration f.elevation)],
         storage := some (setLocalStorage (s.workouts ++
           [some (Cycling now (f.lat, f.lng) f.distance f.duration
             f.elevation)])) },
       .completed) := by
  simp [newWorkout, ht, hdf, hduf, hef, validInputs, allPositive,
    JSNum.isFinite, JSNum.gtZero, hd, hdu, finishSubmit]

/-- Witness for C6: elevation -5 is accepted and the record is
appended and persisted. -/
theorem cycling_elevation_positivity_not_enforced_witness :
    ((0:ℚ) < 20 ∧ (0:ℚ) < 60) ∧
    newWorkout ⟨1730368800000, 9, 31⟩
      ⟨"cycling", .finite 20, .finite 60, .finite 1, .finite (-5), 40, -74⟩
      ⟨[], none⟩
      = ({ workouts := [some (Cycling ⟨1730368800000, 9, 31⟩ (40, -74)
             (.finite 20) (.finite 60) (.finite (-5)))],
           storage := some (setLocalStorage [some (Cycling
             ⟨1730368800000, 9, 31⟩ (40, -74) (.finite 20) (.finite 60)
             (.finite (-5)))]) },
         .completed) :=
  ⟨⟨by norm_num, by norm_num⟩,
   cycling_elevation_positivity_not_enforced ⟨1730368800000, 9, 31⟩
     ⟨"cycling", .finite 20, .finite 60, .finite 1, .finite (-5), 40, -74⟩
     ⟨[], none⟩ 20 60 (-5) rfl rfl rfl rfl (by norm_num) (by norm_num)⟩

/-- Claim C7: a submission of either variant with distance 0 is
rejected at the boundary before any record is constructed, so the
derived-metric division is never executed on it. -/
theorem zero_distance_rejected_before_construction (now : JSDate)
    (f : FormInput) (s : AppState)
    (ht : f.type = "running" ∨ f.type = "cycling")
    (hzero : f.distance = .finite 0) :
    newWorkout now f s = (s, .alerted "Inputs have to be positive numbers!") := by
  have hpos : f.distance.gtZero = false := by simp [hzero, JSNum.gtZero]
  rcases ht with ht | ht <;>
    simp [newWorkout, ht, validInputs, allPositive, hpos]

/-- Witness for C7: a cycling submission with distance 0 is rejected
with the alert and no record appears. -/
theorem zero_distance_rejected_before_construction_witness :
    ((("cycling" : String) = "running" ∨ ("cycling" : String) = "cycling")) ∧
    newWorkout ⟨1730368800000, 9, 31⟩
      ⟨"cycling", .finite 0, .finite 60, .finite 1, .finite 300, 40, -74⟩
      ⟨[], none⟩
      = (⟨[], none⟩, .alerted "Inputs have to be positive numbers!") :=
  ⟨Or.inr rfl,
   zero_distance_rejected_before_construction ⟨1730368800000, 9, 31⟩
     ⟨"cycling", .finite 0, .finite 60, .finite 1, .finite 300, 40, -74⟩
     ⟨[], none⟩ (Or.inr rfl) rfl⟩

/-- Claim C8: for every record of either variant, the date field is the
creation date captured at construction, and the id is the string of the
last (at most) ten decimal digits of the millisecond timestamp: its
characters are the trailing ten digits of the decimal representation,
and those digits denote the timestamp modulo `10 ^ 10`. -/
theorem id_is_last_ten_digits_of_timestamp (now : JSDate)
    (coords : ℚ × ℚ) (d du c e : JSNum) (h : 0 < now.millis) :
    (Running now coords d du c).date = now ∧
    (Cycling now coords d du e).date = now ∧
    (Running now coords d du c).id = (Cycling now coords d du e).id ∧
    (Running now coords d du c).id.data
      = (((Nat.digits 10 now.millis).take 10).map Nat.digitChar).reverse ∧
    Nat.ofDigits 10 ((Nat.digits 10 now.millis).take 10)
      = now.millis % 10 ^ 10 := by
  refine ⟨rfl, rfl, rfl, ?_, ofDigits_take_eq_mod 10 now.millis⟩
  show (Nat.repr now.millis).data.drop
    ((Nat.repr now.millis).data.length - 10) = _
  have hrepr : (Nat.repr now.millis).data = Nat.toDigits 10 now.millis := rfl
  rw [hrepr, toDigits_eq_digits now.millis h]
  set L := (Nat.digits 10 now.millis).map Nat.digitChar with hL
  rw [List.length_reverse, List.drop_reverse]
  have htake : L.take (L.length - (L.length - 10)) = L.take 10 := by
    by_cases hlen : 10 ≤ L.length
    · congr 1
      omega
    · rw [List.take_of_length_le (by omega), List.take_of_length_le (by omega)]
  rw [htake, hL, List.map_take]

/-- Witness for C8 at the timestamp 1730368800000 (13 decimal
digits). -/
theorem id_is_last_ten_digits_of_timestamp_witness :
    0 < 1730368800000 ∧
    ((Running ⟨1730368800000, 9, 31⟩ (40, -74) (.finite 5) (.finite 24)
        (.finite 178)).date = ⟨1730368800000, 9, 31⟩ ∧
     (Cycling ⟨1730368800000, 9, 31⟩ (40, -74) (.finite 5) (.finite 24)
        (.finite 300)).date = ⟨1730368800000, 9, 31⟩ ∧
     (Running ⟨1730368800000, 9, 31⟩ (40, -74) (.finite 5) (.finite 24)
        (.finite 178)).id
       = (Cycling ⟨1730368800000, 9, 31⟩ (40, -74) (.finite 5) (.finite 24)
          (.finite 300)).id ∧
     (Running ⟨1730368800000, 9, 31⟩ (40, -74) (.finite 5) (.finite 24)
        (.finite 178)).id.data
       = (((Nat.digits 10 1730368800000).take 10).map Nat.digitChar).reverse ∧
     Nat.ofDigits 10 ((Nat.digits 10 1730368800000).take 10)
       = 1730368800000 % 10 ^ 10) :=
  ⟨by norm_num,
   id_is_last_ten_digits_of_timestamp ⟨1730368800000, 9, 31⟩ (40, -74)
     (.finite 5) (.finite 24) (.finite 178) (.finite 300) (by norm_num)⟩

/-- Claim C9: the clicks counter of every freshly constructed record is
0, and `click` increments it by exactly one while leaving every other
field (date, id, coords, distance, duration, type, variant metrics and
description) unchanged. -/
theorem clicks_start_zero_and_click_increments_only_clicks :
    (∀ (now : JSDate) (coords : ℚ × ℚ) (d du c : JSNum),
      (Running now coords d du c).clicks = 0) ∧
    (∀ (now : JSDate) (coords : ℚ × ℚ) (d du e : JSNum),
      (Cycling now coords d du e).clicks = 0) ∧
    (∀ w : Workout,
      w.click.clicks = w.clicks + 1 ∧ w.click.date = w.date ∧
      w.click.id = w.id ∧ w.click.coords = w.coords ∧
      w.click.distance = w.distance ∧ w.click.duration = w.duration ∧
      w.click.type = w.type ∧ w.click.variant = w.variant ∧
      w.click.description = w.description) :=
  ⟨fun _ _ _ _ _ => rfl, fun _ _ _ _ _ => rfl,
   fun _ => ⟨rfl, rfl, rfl, rfl, rfl, rfl, rfl, rfl, rfl⟩⟩

/-- Counterexample to C10 as stated: on a submission with the
unrecognized type "walking" the handler does append an `undefined`
entry to the collection and attempts to render it, but that render
throws a `TypeError` while reading `coords` of `undefined`, so the
handler aborts and the collection is not persisted: storage stays
empty, contradicting the claimed persistence of the collection. -/
theorem unknown_type_does_not_persist_counterexample :
    newWorkout ⟨1730368800000, 9, 31⟩
      ⟨"walking", .finite 3, .finite 30, .finite 100, .finite 10, 40, -74⟩
      ⟨[], none⟩
      = (⟨[none], none⟩, .thrown "TypeError: cannot read coords of undefined") ∧
    (newWorkout ⟨1730368800000, 9, 31⟩
      ⟨"walking", .finite 3, .finite 30, .finite 100, .finite 10, 40, -74⟩
      ⟨[], none⟩).1.storage = none :=
  ⟨rfl, rfl⟩

/-- Claim C10 as amended: for every submission whose type selector is
neither "running" nor "cycling", the handler performs no validation and
raises no alert, appends an `undefined` entry to the in-memory
collection, and then aborts with a `TypeError` while attempting to
render that entry, so the collection including the `undefined` entry is
never persisted and storage is left unchanged. -/
theorem unknown_type_appends_undefined_then_throws (now : JSDate)
    (f : FormInput) (s : AppState)
    (h1 : f.type ≠ "running") (h2 : f.type ≠ "cycling") :
    newWorkout now f s =
      ({ workouts := s.workouts ++ [none], storage := s.storage },
       .thrown "TypeError: cannot read coords of undefined") := by
  simp [newWorkout, h1, h2, finishSubmit]

/-- Witness for the amended C10: a "hiking" submission against a
one-record state appends `undefined` and leaves storage unchanged. -/
theorem unknown_type_appends_undefined_then_throws_witness :
    (("hiking" : String) ≠ "running" ∧ ("hiking" : String) ≠ "cycling") ∧
    newWorkout ⟨1730368800000, 9, 31⟩
      ⟨"hiking", .finite 3, .finite 30, .finite 100, .finite 10, 40, -74⟩
      ⟨[some (Running ⟨1730368800000, 9, 31⟩ (40, -74) (.finite 5)
          (.finite 24) (.finite 178))], none⟩
      = ({ workouts := [some (Running ⟨1730368800000, 9, 31⟩ (40, -74)
             (.finite 5) (.finite 24) (.finite 178))] ++ [none],
           storage := none },
         .thrown "TypeError: cannot read coords of undefined") :=
  ⟨⟨by decide, by decide⟩,
   unknown_type_appends_undefined_then_throws ⟨1730368800000, 9, 31⟩
     ⟨"hiking", .finite 3, .finite 30, .finite 100, .finite 10, 40, -74⟩
     ⟨[some (Running ⟨1730368800000, 9, 31⟩ (40, -74) (.finite 5)
         (.finite 24) (.finite 178))], none⟩ (by decide) (by decide)⟩
